import Mathlib

/-!
Verification development for the resumable workflow engine of the
content-creation-agent repository (`src/base_workflow.py` and the workflows
built on it).  Python dicts are embedded as association lists over a value
type `Val`; the engine's `run`/`resume` result mapping, the interrupt and
validation subsystem, the cancellation check and the scraping workflow's
parameter-extraction node are translated directly from the source.
-/

namespace ContentAgent

/-- Values stored in the open (dict-shaped) records of the Python source:
strings, booleans, integers, string lists (the `options` fields), and
Python's `None`. -/
inductive Val where
  | str : String → Val
  | bool : Bool → Val
  | int : Int → Val
  | strlist : List String → Val
  | pynone : Val
deriving DecidableEq, Repr

/-- A Python dict with string keys, kept in insertion order. -/
abbrev Dict := List (String × Val)

/-- Lookup of a key in a dict (`d.get(k)` returning the value when present). -/
def dlookup (d : Dict) (k : String) : Option Val :=
  match d with
  | [] => none
  | (k2, v) :: rest => if k2 = k then some v else dlookup rest k

/-- `d[k] = v` on a Python dict: overwrite in place when `k` exists,
append otherwise (Python dicts preserve insertion order). -/
def dinsert (d : Dict) (k : String) (v : Val) : Dict :=
  match d with
  | [] => [(k, v)]
  | (k2, v2) :: rest => if k2 = k then (k, v) :: rest else (k2, v2) :: dinsert rest k v

/-- `{**d1, **d2}`: entries of `d2` override entries of `d1`. -/
def dunion (d1 d2 : Dict) : Dict :=
  match d2 with
  | [] => d1
  | (k, v) :: rest => dunion (dinsert d1 k v) rest

/-- Python truthiness of a `Val`. -/
def truthy : Val → Bool
  | .str s => s != ""
  | .bool bv => bv
  | .int n => n != 0
  | .strlist l => !l.isEmpty
  | .pynone => false

/-- `d.get(k, False)` read as a boolean via Python truthiness. -/
def dGetBool (d : Dict) (k : String) : Bool :=
  match dlookup d k with
  | some v => truthy v
  | none => false

/-- `d.get(k, dflt)` for a string-valued field (every validator in the source
stores a string under `error_message`). -/
def dGetStr (d : Dict) (k dflt : String) : String :=
  match dlookup d k with
  | some (.str s) => s
  | some _ => dflt
  | none => dflt

/-- `str.lower()` (ASCII case folding, which covers every string the source
compares). -/
def pyLower (s : String) : String := String.mk (s.data.map Char.toLower)

/-!
The engine state and result types of `src/base_workflow.py`.

`BaseWorkflowState` is a `TypedDict`; at runtime any of its keys may be
absent (the `run()` entry point seeds only `user_input`), so every field is
an `Option`.  Workflow-specific fields live in `extra`.
-/

structure WorkflowState where
  user_input : Option String := none
  current_step : Option String := none
  workflow_status : Option String := none
  error_message : Option String := none
  extra : Dict := []
deriving DecidableEq, Repr

/-- The value carried by a LangGraph interrupt: the dict passed to
`interrupt({"message": ..., "data": ...})`.  `run`/`resume` read both keys
with `.get` and a default, so they are optional here. -/
structure InterruptPayload where
  message : Option String := none
  data : Option Dict := none
deriving DecidableEq, Repr

/-- The dict returned by `BaseWorkflow.run` / `BaseWorkflow.resume`.
`finalState` stands for the `**result` spread of the final graph state into
the completed-result dict (no declared state class carries a key named
`status` or `thread_id`, so the spread never overrides those two keys). -/
structure RunResult where
  status : String
  thread_id : String
  message : Option String := none
  data : Option Dict := none
  error_message : Option String := none
  finalState : Option WorkflowState := none
deriving DecidableEq, Repr

/-- Outcome of `self.app.ainvoke(...)` as `run`/`resume` observe it:
a final state dict, a state dict containing `__interrupt__` (the first
interrupt's `.value` is extracted), or a raised exception with message
`str(e)`. -/
inductive InvokeOutcome where
  | final : WorkflowState → InvokeOutcome
  | interrupted : InterruptPayload → InvokeOutcome
  | raised : String → InvokeOutcome
deriving DecidableEq, Repr

/-- Default interrupt data used when the interrupt value has no `data` key
(`base_workflow.py` lines 193-197 and 262-266). -/
def defaultInterruptData : Dict :=
  [("type", .str "generic"), ("options", .strlist []), ("instructions", .str "Please provide input")]

/-- Python truthiness of `result.get("error_message")`: absent or empty
means falsy. -/
def errTruthy : Option String → Bool
  | none => false
  | some s => s != ""

/-- `BaseWorkflow.run` (lines 178-230) after `self.app.ainvoke` finished
with the given outcome: the mapping from graph outcome to result dict. -/
def runResult (thread_id : String) (outcome : InvokeOutcome) : RunResult :=
  match outcome with
  | .interrupted p =>
      { status := "awaiting_human_input",
        thread_id := thread_id,
        message := some (p.message.getD "Input required"),
        data := some (p.data.getD defaultInterruptData) }
  | .final s =>
      if s.workflow_status = some "completed" then
        { status := "completed", thread_id := thread_id, finalState := some s }
      else if errTruthy s.error_message then
        { status := "error", thread_id := thread_id, error_message := s.error_message }
      else
        { status := "completed", thread_id := thread_id, finalState := some s }
  | .raised e =>
      { status := "error", thread_id := thread_id, error_message := some e }

/-- The result `resume` produces in its cancellation branch
(`base_workflow.py` lines 234-239). -/
def cancelResult (thread_id : String) : RunResult :=
  { status := "cancelled", thread_id := thread_id, message := some "Workflow cancelled by user" }

/-- `BaseWorkflow.resume` (lines 244-299) after `self.app.ainvoke` finished
with the given outcome; identical to `runResult` except for the default
interrupt message. -/
def resumeFromOutcome (thread_id : String) (outcome : InvokeOutcome) : RunResult :=
  match outcome with
  | .interrupted p =>
      { status := "awaiting_human_input",
        thread_id := thread_id,
        message := some (p.message.getD "More input needed"),
        data := some (p.data.getD defaultInterruptData) }
  | .final s =>
      if s.workflow_status = some "completed" then
        { status := "completed", thread_id := thread_id, finalState := some s }
      else if errTruthy s.error_message then
        { status := "error", thread_id := thread_id, error_message := s.error_message }
      else
        { status := "completed", thread_id := thread_id, finalState := some s }
  | .raised e =>
      { status := "error", thread_id := thread_id, error_message := some e }

/-- `BaseWorkflow.resume` (lines 232-299).  `invoke` stands for
`self.app.ainvoke(Command(resume=user_input), config)`; the cancellation
special case returns before it is ever consulted. -/
def resumeResult (invoke : String → InvokeOutcome) (user_input thread_id : String) : RunResult :=
  if pyLower user_input = "cancel" then cancelResult thread_id
  else resumeFromOutcome thread_id (invoke user_input)

/-!  The checkpoint store (`self.memory`, an `InMemorySaver` keyed by thread
id).  `resume` never touches it directly; the graph invocation updates it
through the checkpointer, which the `invoke` argument models. -/

structure Checkpoint where
  state : WorkflowState
  suspendedStep : Option String
deriving DecidableEq, Repr

abbrev CheckpointStore := List (String × Checkpoint)

def storeGet (store : CheckpointStore) (thread_id : String) : Option Checkpoint :=
  match store with
  | [] => none
  | (t, c) :: rest => if t = thread_id then some c else storeGet rest thread_id

/-- A checkpoint is terminal when its state's `workflow_status` is one of
the terminal statuses (spec §3 invariant (b)). -/
def checkpointTerminal (c : Checkpoint) : Bool :=
  match c.state.workflow_status with
  | some s => s = "completed" || s = "error" || s = "cancelled"
  | none => false

/-- `BaseWorkflow.resume` together with its effect on the checkpoint store:
the cancellation branch returns without running the graph, so the store is
returned unchanged; otherwise the graph invocation may rewrite it. -/
def resumeWithStore (invoke : String → CheckpointStore → InvokeOutcome × CheckpointStore)
    (store : CheckpointStore) (user_input thread_id : String) : RunResult × CheckpointStore :=
  if pyLower user_input = "cancel" then (cancelResult thread_id, store)
  else
    let oc := invoke user_input store
    (resumeFromOutcome thread_id oc.1, oc.2)

/-!
The interrupt & validation subsystem (`InterruptConfig`,
`BaseWorkflow.create_interrupt`, `BaseWorkflow.create_human_interaction_node`,
`BaseWorkflow.update_step`).

A validator returns a plain dict (read with `.get("valid", False)` and
`.get("error_message", ...)`), so `validation_fn` produces a `Dict` here.
-/

structure InterruptConfig where
  interrupt_type : String
  message : String
  instructions : String
  options : List String
  step_name : String
  validation_fn : String → Dict → Dict
  state_update_fn : WorkflowState → Dict → WorkflowState

/-- `InterruptConfig.get_data_builder`: the static part of the interrupt
data built from the config. -/
def get_data_builder (c : InterruptConfig) : Dict :=
  [("type", .str c.interrupt_type),
   ("instructions", .str c.instructions),
   ("options", .strlist c.options)]

/-- `BaseWorkflow.update_step`: stamp the current step name. -/
def update_step (state : WorkflowState) (step_name : String) : WorkflowState :=
  { state with current_step := some step_name }

/-- First execution of `create_interrupt` inside a step: the
`interrupt({"message": message, "data": data})` call suspends the graph
with this payload (the call does not return on the first pass). -/
def create_interrupt_suspend (message : String) (data : Dict) : InterruptPayload :=
  { message := some message, data := some data }

/-- What an interaction step produces once it is re-entered with a raw
human answer: either the accepted validation result, or a fresh suspension
(the second `interrupt(...)` call in `create_interrupt`). -/
inductive InterruptStepOutcome where
  | accepted : Dict → InterruptStepOutcome
  | resuspended : InterruptPayload → InterruptStepOutcome
deriving DecidableEq, Repr

/-- The guidance data built in the invalid branch of `create_interrupt`
(lines 341-346): `{**data, "error": True, "error_message": error_message,
"previous_input": validation_input}`. -/
def guidance_data (data : Dict) (error_message validation_input : String) : Dict :=
  dinsert (dinsert (dinsert data "error" (.bool true))
    "error_message" (.str error_message)) "previous_input" (.str validation_input)

/-- `BaseWorkflow.create_interrupt` (lines 301-352) on the resumed pass:
the replayed `interrupt` call returns `validation_input`, the validator
runs, and either the result is returned (valid) or a new interrupt with
guidance is raised (invalid). -/
def create_interrupt (message : String) (data : Dict)
    (validation_fn : String → Dict → Dict) (validation_context : Dict)
    (validation_input : String) : InterruptStepOutcome :=
  let validation_result := validation_fn validation_input validation_context
  if dGetBool validation_result "valid" then
    .accepted validation_result
  else
    let error_message := dGetStr validation_result "error_message" "Invalid input. Please try again."
    .resuspended { message := some error_message,
                   data := some (guidance_data data error_message validation_input) }

/-- Result of one execution of a graph node: an updated state, or a
suspension carrying an interrupt payload. -/
inductive NodeOutcome where
  | ok : WorkflowState → NodeOutcome
  | suspended : InterruptPayload → NodeOutcome
deriving DecidableEq, Repr

/-- `node_accepts o` is true when the node run ended in a state update
(graph traversal continues) rather than a suspension. -/
def node_accepts : NodeOutcome → Bool
  | .ok _ => true
  | .suspended _ => false

/-- The node built by `BaseWorkflow.create_human_interaction_node` (lines
59-102) on its first execution: stamp the step, build the interrupt data
(static fields merged with the `_build_custom_interrupt_data` hook result),
and suspend.  The `_validate_preconditions` hook defaults to `None`, its
short-circuit is not modelled. -/
def interaction_node_first (cfg : InterruptConfig) (custom_data : Dict)
    (state : WorkflowState) : NodeOutcome :=
  let _stamped := update_step state cfg.step_name
  let data := dunion (get_data_builder cfg) custom_data
  .suspended (create_interrupt_suspend cfg.message data)

/-- The same node replayed with the raw human answer `rawInput`
(the resumed `interrupt` call returns it): run `create_interrupt` and, on a
valid result, apply the config's `state_update_fn` (line 97-100); on an
invalid one the fresh interrupt suspends the node again. -/
def interaction_node_resume (cfg : InterruptConfig) (custom_data validation_context : Dict)
    (state : WorkflowState) (rawInput : String) : NodeOutcome :=
  let state := update_step state cfg.step_name
  let data := dunion (get_data_builder cfg) custom_data
  match create_interrupt cfg.message data cfg.validation_fn validation_context rawInput with
  | .accepted vr => .ok (cfg.state_update_fn state vr)
  | .resuspended p => .suspended p

/-- The interrupt data an interaction node builds: the config's static
fields merged with the custom-data hook result (`Template method` step 3-4
of `create_human_interaction_node`). -/
def node_data (cfg : InterruptConfig) (custom_data : Dict) : Dict :=
  dunion (get_data_builder cfg) custom_data

/-- The error message `create_interrupt` reports when the validator of
`cfg` rejects `rawInput` under `validation_context`. -/
def node_error_message (cfg : InterruptConfig) (validation_context : Dict)
    (rawInput : String) : String :=
  dGetStr (cfg.validation_fn rawInput validation_context) "error_message"
    "Invalid input. Please try again."

/-- The full guidance data of the re-suspension an interaction node issues
after a rejected input. -/
def node_guidance_data (cfg : InterruptConfig) (custom_data validation_context : Dict)
    (rawInput : String) : Dict :=
  guidance_data (node_data cfg custom_data)
    (node_error_message cfg validation_context rawInput) rawInput

/-!
The two interrupt validators and state-merge functions of
`src/leads/instagram_message_workflow.py` and the interrupt configs that
register them (lines 34-44, 418-439, 474-509).
-/

/-- `validate_login_confirmation` (instagram_message_workflow.py lines 34-44). -/
def validate_login_confirmation (user_input : String) (context : Dict) : Dict :=
  if ["yes", "y", "yes, i\x27ve logged in"].contains (pyLower user_input) then
    [("valid", .bool true), ("confirmed", .bool true)]
  else if ["no", "n", "cancel"].contains (pyLower user_input) then
    [("valid", .bool true), ("confirmed", .bool false)]
  else
    [("valid", .bool false),
     ("error_message", .str "Please confirm with \x27Yes\x27 or cancel with \x27No\x27")]

/-- `InstagramMessageWorkflow._validate_message_confirmation` (lines
485-499): any free-text answer outside the recognized keywords is accepted
as an edited message. -/
def validate_message_confirmation (user_input : String) (context : Dict) : Dict :=
  if ["yes", "y", "send", "send message"].contains (pyLower user_input) then
    [("valid", .bool true), ("action", .str "send")]
  else if ["no", "n", "skip", "skip this profile"].contains (pyLower user_input) then
    [("valid", .bool true), ("action", .str "skip")]
  else if ["cancel", "end", "quit", "exit"].contains (pyLower user_input) then
    [("valid", .bool true), ("action", .str "cancel")]
  else
    [("valid", .bool true), ("action", .str "edit"), ("edited_message", .str user_input)]

/-- `InstagramMessageWorkflow._update_state_after_login` (lines 474-483). -/
def update_state_after_login (state : WorkflowState) (validation_result : Dict) : WorkflowState :=
  if dGetBool validation_result "confirmed" then state
  else { state with error_message := some "Login cancelled by user",
                    workflow_status := some "cancelled" }

/-- `InstagramMessageWorkflow._update_state_after_message_confirmation`
(lines 501-509). -/
def update_state_after_message_confirmation (state : WorkflowState)
    (validation_result : Dict) : WorkflowState :=
  let st := { state with
    extra := dinsert state.extra "message_confirmed"
      ((dlookup validation_result "action").getD .pynone) }
  match dlookup validation_result "edited_message" with
  | some v => { st with extra := dinsert st.extra "message_text" v }
  | none => st

/-- The `login_confirmation` entry of
`InstagramMessageWorkflow._register_interrupt_configs` (lines 421-430). -/
def login_confirmation_config : InterruptConfig :=
  { interrupt_type := "login_confirmation",
    message := "Please confirm Instagram login",
    instructions := "Please log in to Instagram in the browser window, then confirm when ready",
    options := ["Yes, I\x27ve logged in", "Cancel"],
    step_name := "login_confirmation",
    validation_fn := validate_login_confirmation,
    state_update_fn := update_state_after_login }

/-- The `message_confirmation` entry of
`InstagramMessageWorkflow._register_interrupt_configs` (lines 431-439). -/
def message_confirmation_config : InterruptConfig :=
  { interrupt_type := "message_confirmation",
    message := "Confirm or edit message",
    instructions := "Review the message and confirm when ready to send, or edit it",
    options := ["Send message", "Skip this profile", "Edit", "Cancel"],
    step_name := "message_confirmation",
    validation_fn := validate_message_confirmation,
    state_update_fn := update_state_after_message_confirmation }

/-!
String helpers mirroring the Python string operations used by
`InstagramScrapingWorkflow.extract_parameters`, implemented by structural
recursion on character lists so that every definition evaluates inside the
kernel.
-/

/-- Split a character list at every character satisfying `p`, keeping empty
pieces (the semantics of `str.split(sep)` after `str.replace`, both on
single-character separators). -/
def splitPred (p : Char → Bool) : List Char → List (List Char)
  | [] => [[]]
  | c :: rest =>
    match splitPred p rest with
    | [] => if p c then [[], []] else [[c]]
    | h :: t => if p c then [] :: h :: t else (c :: h) :: t

/-- Remove leading and trailing characters satisfying `p`
(`str.strip()` / `str.strip('@')`). -/
def pyStripChars (p : Char → Bool) (l : List Char) : List Char :=
  ((l.dropWhile p).reverse.dropWhile p).reverse

/-- `str.strip()` on a string. -/
def pyStrip (s : String) : String := String.mk (pyStripChars Char.isWhitespace s.data)

/-- `l.startswith(pre)` on character lists. -/
def listStartsWith : List Char → List Char → Bool
  | _, [] => true
  | [], _ :: _ => false
  | c :: cs, d :: ds => c == d && listStartsWith cs ds

/-- Lower-case a character list (`str.lower()`). -/
def lowerList (l : List Char) : List Char := l.map Char.toLower

/-- Decimal digit accumulation for `int(...)`. -/
def digitsVal : List Char → Nat → Option Nat
  | [], acc => some acc
  | c :: rest, acc => if c.isDigit then digitsVal rest (acc * 10 + (c.toNat - 48)) else none

/-- Python `int(value)` on an already-stripped string: an optional sign
followed by decimal digits (digit-group underscores are not modelled; no
source input uses them). -/
def pyInt (s : String) : Option Int :=
  match s.data with
  | [] => none
  | '-' :: rest =>
    match rest with
    | [] => none
    | _ => (digitsVal rest 0).map (fun n => -(n : Int))
  | '+' :: rest =>
    match rest with
    | [] => none
    | _ => (digitsVal rest 0).map (fun n => (n : Int))
  | l => (digitsVal l 0).map (fun n => (n : Int))

/-- String-valued association list used for `extracted_params`
(a Python dict from parameter name to raw value). -/
def assocSet (m : List (String × String)) (k v : String) : List (String × String) :=
  match m with
  | [] => [(k, v)]
  | (k2, v2) :: rest => if k2 = k then (k, v) :: rest else (k2, v2) :: assocSet rest k v

def assocGet (m : List (String × String)) (k : String) : Option String :=
  match m with
  | [] => none
  | (k2, v) :: rest => if k2 = k then some v else assocGet rest k

namespace Scraping

/-!
`InstagramScrapingWorkflow` (`src/scraping/scraping_workflow.py`): the state
class, the node table, and the `extract_parameters` node.  As with the base
state, every `TypedDict` key may be absent at runtime, so fields are
`Option`s; reading an absent key raises `KeyError`, modelled as
`Except.error` carrying `str(KeyError(key)) = "'key'"`.
-/

structure State where
  user_input : Option String := none
  current_step : Option String := none
  workflow_status : Option String := none
  error_message : Option String := none
  usernames : Option (List String) := none
  max_posts : Option Int := none
  force_reset : Option Bool := none
deriving DecidableEq, Repr

/-- `BaseWorkflow.update_step` applied to the scraping state. -/
def update_step (state : State) (step_name : String) : State :=
  { state with current_step := some step_name }

/-- The `param_keys` table of `extract_parameters` (lines 54-59), in its
Python iteration order. -/
def param_keys : List (String × String) :=
  [("usernames:", "usernames"), ("accounts:", "usernames"),
   ("max_posts:", "max_posts"), ("force_reset:", "force_reset")]

/-- One iteration of the line loop of `extract_parameters` (lines 67-74):
strip the line, and for every parameter key whose prefix matches
case-insensitively, record the non-empty stripped value. -/
def extract_line_params (m : List (String × String)) (rawLine : List Char) :
    List (String × String) :=
  let line := pyStripChars Char.isWhitespace rawLine
  param_keys.foldl (fun acc kp =>
    if listStartsWith (lowerList line) (lowerList kp.1.data) then
      let value := String.mk (pyStripChars Char.isWhitespace (line.drop kp.1.data.length))
      if value != "" then assocSet acc kp.2 value else acc
    else acc) m

/-- Lines 64-74: `user_input.replace(";", "\n").split("\n")` followed by the
extraction loop. -/
def parse_params (user_input : String) : List (String × String) :=
  (splitPred (fun c => c == ';' || c == '\n') user_input.data).foldl extract_line_params []

/-- Lines 77-81: split the usernames value on commas/whitespace, strip `@`
signs, drop empties. -/
def split_usernames (v : String) : List String :=
  ((splitPred (fun c => Char.isWhitespace c || c == ',') v.data).map
    (fun u => String.mk (pyStripChars (fun c => c == '@') u))).filter (fun u => u != "")

/-- Lines 77-81: the `if "usernames" in extracted_params` block. -/
def apply_usernames (st : State) (m : List (String × String)) : State :=
  match assocGet m "usernames" with
  | some v => { st with usernames := some (split_usernames v) }
  | none => st

/-- Lines 84-90: the `if "max_posts" in extracted_params` block (invalid
integers keep the previous value). -/
def apply_max_posts (st : State) (m : List (String × String)) : State :=
  match assocGet m "max_posts" with
  | some v =>
    match pyInt v with
    | some n => { st with max_posts := some n }
    | none => st
  | none => st

/-- Lines 92-94: the `if "force_reset" in extracted_params` block. -/
def apply_force_reset (st : State) (m : List (String × String)) : State :=
  match assocGet m "force_reset" with
  | some v => { st with force_reset := some (["true", "yes", "1"].contains (pyLower v)) }
  | none => st

/-- Lines 76-94: the three parameter blocks applied in their source order. -/
def apply_params (st : State) (m : List (String × String)) : State :=
  apply_force_reset (apply_max_posts (apply_usernames st m) m) m

def no_usernames_message : String :=
  "No Instagram usernames found in input. Please provide usernames using \x27usernames: username1, username2\x27 format."

/-- Lines 96-99: the final `if not state["usernames"]` check (a missing
`usernames` key raises `KeyError`; an empty list sets the error fields). -/
def check_usernames (st2 : State) : Except String State :=
  match st2.usernames with
  | none => Except.error "\x27usernames\x27"
  | some us =>
    if us.isEmpty then
      Except.ok { st2 with error_message := some no_usernames_message,
                           workflow_status := some "error" }
    else Except.ok st2

/-- The body of `extract_parameters` after the step stamp: read
`state["user_input"]` (KeyError when absent), run the extraction loop,
apply the parameters, and validate the usernames. -/
def extract_after_step (st : State) : Except String State :=
  match st.user_input with
  | none => Except.error "\x27user_input\x27"
  | some ui => check_usernames (apply_params st (parse_params ui))

/-- `InstagramScrapingWorkflow.extract_parameters` (lines 47-100). -/
def extract_parameters (state : State) : Except String State :=
  extract_after_step (update_step state "parameter_extraction")

/-- The node names registered by `InstagramScrapingWorkflow.define_nodes`
(lines 31-36). -/
def node_names : List String := ["extract_parameters", "scrape_instagram", "build_embeddings"]

/-- The `current_step` of a node outcome (`none` when the node raised). -/
def currentStepOf : Except String State → Option String
  | .ok s => s.current_step
  | .error _ => none

end Scraping

/-!
Cancellation.  `InstagramPostsScraper.check_stop_event` is under `src/`;
the `check_cancellation` decorator and the `stop_event`-aware engine
branch are repository code missing from `src/` (they are imported from
`src.base_workflow` by `scraping_workflow.py` line 5,
`instagram_message_workflow.py` line 15 and `video_gemini_workflow.py`
line 10, and `run_workflow` calls `run(user_input, stop_event=stop_event)`,
but `src/src/base_workflow.py` defines neither), so they are modelled from
the spec.
-/

/-- What one step of a token-aware run signals to the engine. -/
inductive StepSignal where
  | done : WorkflowState → StepSignal
  | cancelledSignal : StepSignal
  | failed : String → StepSignal
deriving DecidableEq, Repr

/-- `InstagramPostsScraper.check_stop_event` (instagram_posts_scraper.py
lines 38-49): raise `asyncio.CancelledError("Scraping operation cancelled")`
when a stop event was supplied and is set.  `none` models `stop_event=None`,
`some b` a supplied event with `is_set() = b`. -/
def check_stop_event (stop_event : Option Bool) : Except String Unit :=
  match stop_event with
  | some true => Except.error "Scraping operation cancelled"
  | _ => Except.ok ()

/-- Modelled from the spec: the `check_cancellation` decorator is imported
from `src.base_workflow` but not defined in the `src/` snapshot; spec §4.4
and §9 describe it as "an explicit guard call at the top of any step body
that may run long" which observes the cancellation token and, if set,
aborts with a `Cancelled` signal before the step body runs. -/
def check_cancellation (stop_event : Option Bool) (step : WorkflowState → StepSignal)
    (state : WorkflowState) : StepSignal :=
  if stop_event = some true then .cancelledSignal else step state

/-- Outcome of a token-aware graph invocation: a plain outcome, or a
`Cancelled` signal that escaped a step. -/
inductive TokOutcome where
  | normal : InvokeOutcome → TokOutcome
  | cancelledRun : TokOutcome
deriving DecidableEq, Repr

/-- Lift a step signal of a one-step graph to the invocation outcome the
engine observes. -/
def signalOutcome : StepSignal → TokOutcome
  | .done s => .normal (.final s)
  | .cancelledSignal => .cancelledRun
  | .failed e => .normal (.raised e)

/-- Modelled from the spec: the `stop_event`-aware result mapping of the
engine.  Spec §4.4: "The engine maps a `Cancelled` signal to
`status = cancelled`, distinct from `error`, and this distinction must be
observable by callers"; the non-cancelled outcomes are mapped exactly as by
`runResult` from the source. -/
def runResultTok (thread_id : String) (o : TokOutcome) : RunResult :=
  match o with
  | .normal oc => runResult thread_id oc
  | .cancelledRun =>
      { status := "cancelled", thread_id := thread_id,
        message := some "Workflow cancelled by user" }

/-!  Concrete fixtures used to instantiate the theorems below. -/

/-- A concrete interrupt payload, as produced by a confirmation step. -/
def confirmPayload : InterruptPayload :=
  { message := some "Please confirm", data := some [("type", .str "confirm")] }

/-- A concrete checkpoint suspended at step "B" of a running thread "t1". -/
def checkpointB : Checkpoint :=
  { state := { user_input := some "go", current_step := some "B",
               workflow_status := some "running" },
    suspendedStep := some "B" }

/-- A one-thread store holding `checkpointB` under "t1". -/
def storeB : CheckpointStore := [("t1", checkpointB)]

/-- The empty workflow state (a state dict with no keys set). -/
def emptyState : WorkflowState := {}

/-- A concrete final state whose `workflow_status` is "cancelled" and whose
`error_message` is absent. -/
def cancelledState : WorkflowState :=
  { user_input := some "x", workflow_status := some "cancelled" }

/-!  Theorems. -/

lemma dlookup_dinsert_self (d : Dict) (k : String) (v : Val) :
    dlookup (dinsert d k v) k = some v := by
  induction d with
  | nil => simp [dinsert, dlookup]
  | cons hd tl ih =>
    obtain ⟨k2, v2⟩ := hd
    by_cases h : k2 = k
    · simp [dinsert, dlookup, h]
    · simp [dinsert, dlookup, h, ih]

lemma dlookup_dinsert_ne (d : Dict) (k k2 : String) (v : Val) (h : k2 ≠ k) :
    dlookup (dinsert d k v) k2 = dlookup d k2 := by
  induction d with
  | nil => simp [dinsert, dlookup, Ne.symm h]
  | cons hd tl ih =>
    obtain ⟨k3, v3⟩ := hd
    by_cases h3 : k3 = k
    · subst h3
      simp [dinsert, dlookup, Ne.symm h]
    · simp only [dinsert, if_neg h3, dlookup]
      by_cases h4 : k3 = k2 <;> simp [h4, ih]

lemma apply_usernames_current_step (st : Scraping.State) (m : List (String × String)) :
    (Scraping.apply_usernames st m).current_step = st.current_step := by
  unfold Scraping.apply_usernames
  rcases h : assocGet m "usernames" with _ | v <;> simp [h]

lemma apply_max_posts_current_step (st : Scraping.State) (m : List (String × String)) :
    (Scraping.apply_max_posts st m).current_step = st.current_step := by
  unfold Scraping.apply_max_posts
  rcases h : assocGet m "max_posts" with _ | v
  · simp [h]
  · rcases h2 : pyInt v with _ | n <;> simp [h, h2]

lemma apply_force_reset_current_step (st : Scraping.State) (m : List (String × String)) :
    (Scraping.apply_force_reset st m).current_step = st.current_step := by
  unfold Scraping.apply_force_reset
  rcases h : assocGet m "force_reset" with _ | v <;> simp [h]

lemma apply_params_current_step (st : Scraping.State) (m : List (String × String)) :
    (Scraping.apply_params st m).current_step = st.current_step := by
  unfold Scraping.apply_params
  rw [apply_force_reset_current_step, apply_max_posts_current_step,
    apply_usernames_current_step]

lemma check_usernames_current_step (st2 s2 : Scraping.State)
    (h : Scraping.check_usernames st2 = Except.ok s2) :
    s2.current_step = st2.current_step := by
  unfold Scraping.check_usernames at h
  split at h
  · exact absurd h (by simp)
  · split at h
    · rw [Except.ok.injEq] at h
      rw [← h]
    · rw [Except.ok.injEq] at h
      rw [← h]

lemma extract_after_step_current_step (st s2 : Scraping.State)
    (h : Scraping.extract_after_step st = Except.ok s2) :
    s2.current_step = st.current_step := by
  unfold Scraping.extract_after_step at h
  split at h
  · exact absurd h (by simp)
  · rw [check_usernames_current_step _ _ h, apply_params_current_step]

/-- Claim C1 (counterexample): when the underlying graph suspends on an
interrupt, `run` returns the literal status string "awaiting_human_input",
which is not "awaiting_input" and lies outside the claimed four-value
status set. -/
theorem run_interrupt_status_literal_counterexample :
    (runResult "t1" (.interrupted confirmPayload)).status = "awaiting_human_input"
    ∧ ¬ ((runResult "t1" (.interrupted confirmPayload)).status
          ∈ (["completed", "awaiting_input", "error", "cancelled"] : List String)) := by
  decide

/-- Claim C1 (amended): every result of `run` and `resume` has a status in
the set of strings "completed", "awaiting_human_input", "error",
"cancelled"; when the underlying graph suspends on an interrupt the status
is "awaiting_human_input" and the result carries the interrupt's message,
data and thread id. -/
theorem run_resume_status_value_set (tid input : String)
    (invoke : String → InvokeOutcome) (p : InterruptPayload) :
    (runResult tid (.interrupted p)).status = "awaiting_human_input"
    ∧ (runResult tid (.interrupted p)).message = some (p.message.getD "Input required")
    ∧ (runResult tid (.interrupted p)).data = some (p.data.getD defaultInterruptData)
    ∧ (runResult tid (.interrupted p)).thread_id = tid
    ∧ (∀ o : InvokeOutcome, (runResult tid o).status
        ∈ (["completed", "awaiting_human_input", "error", "cancelled"] : List String))
    ∧ (resumeResult invoke input tid).status
        ∈ (["completed", "awaiting_human_input", "error", "cancelled"] : List String) := by
  refine ⟨rfl, rfl, rfl, rfl, ?_, ?_⟩
  · intro o
    cases o with
    | interrupted q => simp [runResult]
    | raised e => simp [runResult]
    | final s =>
      simp only [runResult]
      split
      · simp
      · split <;> simp
  · unfold resumeResult
    split
    · simp [cancelResult]
    · generalize invoke input = o
      cases o with
      | interrupted q => simp [resumeFromOutcome]
      | raised e => simp [resumeFromOutcome]
      | final s =>
        simp only [resumeFromOutcome]
        split
        · simp
        · split <;> simp

/-- Claim C2 (counterexample): `resume("cancel", "t1")` on a thread whose
checkpoint is suspended at step "B" returns the cancelled result but
performs no checkpoint write: the store comes back unchanged and the
checkpoint of "t1" is still suspended and not terminal. -/
theorem resume_cancel_checkpoint_untouched_counterexample :
    (resumeWithStore (fun _ st => (.raised "unused", st)) storeB "cancel" "t1").1
      = cancelResult "t1"
    ∧ (resumeWithStore (fun _ st => (.raised "unused", st)) storeB "cancel" "t1").2 = storeB
    ∧ Option.map checkpointTerminal (storeGet storeB "t1") = some false
    ∧ Option.map Checkpoint.suspendedStep (storeGet storeB "t1") = some (some "B") := by
  decide

/-- Claim C2 (amended): for every thread id and checkpoint store, calling
`resume` with the literal input "cancel" immediately returns a cancelled
result without invoking any step of the graph (result and store are
independent of the graph invocation), and the thread's checkpoint is left
unchanged — it is not marked terminal. -/
theorem resume_cancel_immediate_no_checkpoint_write
    (invoke invoke2 : String → CheckpointStore → InvokeOutcome × CheckpointStore)
    (store : CheckpointStore) (tid input : String) (h : input = "cancel") :
    (resumeWithStore invoke store input tid).1 = cancelResult tid
    ∧ (resumeWithStore invoke store input tid).2 = store
    ∧ resumeWithStore invoke store input tid = resumeWithStore invoke2 store input tid := by
  subst h
  have hc : pyLower "cancel" = "cancel" := by decide
  refine ⟨?_, ?_, ?_⟩ <;> simp [resumeWithStore, hc]

/-- Claim C2 (witness): a concrete cancel resume on a store with one
suspended checkpoint. -/
theorem resume_cancel_immediate_no_checkpoint_write_witness :
    (resumeWithStore (fun _ st => (.raised "unused", st)) storeB "cancel" "t1").1
      = cancelResult "t1"
    ∧ (resumeWithStore (fun _ st => (.raised "unused", st)) storeB "cancel" "t1").2 = storeB
    ∧ resumeWithStore (fun _ st => (.raised "unused", st)) storeB "cancel" "t1"
      = resumeWithStore (fun _ st => (.final emptyState, st)) storeB "cancel" "t1" :=
  resume_cancel_immediate_no_checkpoint_write (fun _ st => (.raised "unused", st))
    (fun _ st => (.final emptyState, st)) storeB "t1" "cancel" rfl

/-- Claim C4 (confirmed, spec-modelled): a step that observes a set
cancellation token aborts with the `Cancelled` signal (`check_cancellation`
guard; `check_stop_event` raises `asyncio.CancelledError`), and the engine
maps that signal to a result whose status is "cancelled" — not "error" and
not "completed". -/
theorem cancellation_token_maps_to_cancelled_status (tid : String) (stop : Option Bool)
    (step : WorkflowState → StepSignal) (s : WorkflowState) (h : stop = some true) :
    check_cancellation stop step s = .cancelledSignal
    ∧ check_stop_event stop = Except.error "Scraping operation cancelled"
    ∧ (runResultTok tid (signalOutcome (check_cancellation stop step s))).status = "cancelled"
    ∧ (runResultTok tid (signalOutcome (check_cancellation stop step s))).status ≠ "error"
    ∧ (runResultTok tid (signalOutcome (check_cancellation stop step s))).status ≠ "completed" := by
  subst h
  refine ⟨rfl, rfl, rfl, ?_, ?_⟩
  · show ("cancelled" : String) ≠ "error"
    decide
  · show ("cancelled" : String) ≠ "completed"
    decide

/-- Claim C4 (witness): a set token before a long-running step yields
status "cancelled" even though the step body never ran. -/
theorem cancellation_token_maps_to_cancelled_status_witness :
    check_cancellation (some true) StepSignal.done emptyState = .cancelledSignal
    ∧ check_stop_event (some true) = Except.error "Scraping operation cancelled"
    ∧ (runResultTok "t4" (signalOutcome
        (check_cancellation (some true) StepSignal.done emptyState))).status = "cancelled"
    ∧ (runResultTok "t4" (signalOutcome
        (check_cancellation (some true) StepSignal.done emptyState))).status ≠ "error"
    ∧ (runResultTok "t4" (signalOutcome
        (check_cancellation (some true) StepSignal.done emptyState))).status ≠ "completed" :=
  cancellation_token_maps_to_cancelled_status "t4" (some true) StepSignal.done emptyState rfl

/-- Claim C5 (confirmed): an exception raised inside a step (anything the
`except Exception` handler catches, i.e. neither a suspension nor a
cancellation signal) is not propagated: `run` and `resume` return a result
with status "error" carrying the exception's message verbatim. -/
theorem step_exception_returns_error_result (tid e input : String)
    (invoke : String → InvokeOutcome) (h1 : pyLower input ≠ "cancel")
    (h2 : invoke input = .raised e) :
    runResult tid (.raised e) = { status := "error", thread_id := tid, error_message := some e }
    ∧ resumeResult invoke input tid
      = { status := "error", thread_id := tid, error_message := some e } := by
  refine ⟨rfl, ?_⟩
  unfold resumeResult
  rw [if_neg h1, h2]
  rfl

/-- Claim C5 (witness): a step raising an exception with message "boom". -/
theorem step_exception_returns_error_result_witness :
    runResult "t5" (.raised "boom")
      = { status := "error", thread_id := "t5", error_message := some "boom" }
    ∧ resumeResult (fun _ => .raised "boom") "retry" "t5"
      = { status := "error", thread_id := "t5", error_message := some "boom" } :=
  step_exception_returns_error_result "t5" "boom" "retry" (fun _ => .raised "boom")
    (by decide) rfl

/-- Claim C6 (counterexample): resuming an unknown thread id produces no
distinct NotFound result: the graph invocation raises, and `resume` returns
the generic status-"error" result — byte-for-byte the same result a step
exception with the same message would produce — and never a "not_found"
status. -/
theorem resume_unknown_thread_generic_error_counterexample :
    resumeResult (fun _ => .raised "No checkpoint found for thread unknown-7")
        "continue" "unknown-7"
      = { status := "error", thread_id := "unknown-7",
          error_message := some "No checkpoint found for thread unknown-7" }
    ∧ (resumeResult (fun _ => .raised "No checkpoint found for thread unknown-7")
        "continue" "unknown-7").status ≠ "not_found"
    ∧ resumeResult (fun _ => .raised "No checkpoint found for thread unknown-7")
        "continue" "unknown-7"
      = runResult "unknown-7" (.raised "No checkpoint found for thread unknown-7") := by
  decide

/-- Claim C6 (amended): `resume` against an unknown or terminal thread id
does not fail with a distinct NotFound result: the underlying graph
invocation raises, the generic exception handler returns a status-"error"
result carrying the raised message — identical to the generic step-error
result — and no outcome maps to a "not_found" status; no step is invoked. -/
theorem resume_unknown_thread_surfaces_generic_error (tid msg input : String)
    (invoke : String → InvokeOutcome) (h1 : pyLower input ≠ "cancel")
    (h2 : invoke input = .raised msg) :
    resumeResult invoke input tid
      = { status := "error", thread_id := tid, error_message := some msg }
    ∧ resumeResult invoke input tid = runResult tid (.raised msg)
    ∧ (∀ o : InvokeOutcome, (resumeResult (fun _ => o) input tid).status ≠ "not_found") := by
  have hr : resumeResult invoke input tid
      = { status := "error", thread_id := tid, error_message := some msg } := by
    unfold resumeResult
    rw [if_neg h1, h2]
    rfl
  refine ⟨hr, hr, ?_⟩
  intro o
  unfold resumeResult
  rw [if_neg h1]
  cases o with
  | interrupted q => simp [resumeFromOutcome]
  | raised e => simp [resumeFromOutcome]
  | final s =>
    simp only [resumeFromOutcome]
    split
    · simp
    · split <;> simp

/-- Claim C6 (witness): a concrete resume of a thread with no checkpoint. -/
theorem resume_unknown_thread_surfaces_generic_error_witness :
    resumeResult (fun _ => .raised "no checkpoint") "go" "t6"
      = { status := "error", thread_id := "t6", error_message := some "no checkpoint" }
    ∧ resumeResult (fun _ => .raised "no checkpoint") "go" "t6"
      = runResult "t6" (.raised "no checkpoint")
    ∧ (∀ o : InvokeOutcome, (resumeResult (fun _ => o) "go" "t6").status ≠ "not_found") :=
  resume_unknown_thread_surfaces_generic_error "t6" "no checkpoint" "go"
    (fun _ => .raised "no checkpoint") (by decide) rfl

/-- Claim C9 (confirmed): when the graph finishes without an interrupt and
the final state has neither `workflow_status = "completed"` nor a non-empty
`error_message`, `run` and `resume` report top-level status "completed"
whatever `workflow_status` holds (for instance "cancelled" or "scraped"),
spreading the final state into the result. -/
theorem non_completed_status_reported_completed (tid input : String)
    (invoke : String → InvokeOutcome) (s : WorkflowState)
    (h1 : s.workflow_status ≠ some "completed")
    (h2 : errTruthy s.error_message = false)
    (h3 : pyLower input ≠ "cancel") (h4 : invoke input = .final s) :
    (runResult tid (.final s)).status = "completed"
    ∧ (runResult tid (.final s)).finalState = some s
    ∧ (resumeResult invoke input tid).status = "completed"
    ∧ (resumeResult invoke input tid).finalState = some s := by
  have hrun : runResult tid (.final s)
      = { status := "completed", thread_id := tid, finalState := some s } := by
    simp only [runResult]
    rw [if_neg h1, if_neg (by simp [h2])]
  have hres : resumeFromOutcome tid (.final s)
      = { status := "completed", thread_id := tid, finalState := some s } := by
    simp only [resumeFromOutcome]
    rw [if_neg h1, if_neg (by simp [h2])]
  have hresume : resumeResult invoke input tid
      = { status := "completed", thread_id := tid, finalState := some s } := by
    unfold resumeResult
    rw [if_neg h3, h4, hres]
  exact ⟨by rw [hrun], by rw [hrun], by rw [hresume], by rw [hresume]⟩

/-- Claim C9 (witness): a final state whose `workflow_status` is
"cancelled" and whose `error_message` is absent is reported as status
"completed". -/
theorem non_completed_status_reported_completed_witness :
    (runResult "t9a" (.final cancelledState)).status = "completed"
    ∧ (runResult "t9a" (.final cancelledState)).finalState = some cancelledState
    ∧ (resumeResult (fun _ => .final cancelledState) "ok" "t9a").status = "completed"
    ∧ (resumeResult (fun _ => .final cancelledState) "ok" "t9a").finalState
      = some cancelledState :=
  non_completed_status_reported_completed "t9a" "ok" (fun _ => .final cancelledState)
    cancelledState (by decide) rfl (by decide) rfl

/-- Claim C10 (confirmed): the cancellation command check in `resume` is
case-insensitive: any input whose lowercase form equals "cancel" returns the
cancelled result immediately, independently of the graph invocation. -/
theorem resume_cancel_case_insensitive (input tid : String)
    (invoke : String → InvokeOutcome) (h : pyLower input = "cancel") :
    resumeResult invoke input tid = cancelResult tid
    ∧ (∀ invoke2 : String → InvokeOutcome,
        resumeResult invoke2 input tid = resumeResult invoke input tid) := by
  constructor
  · unfold resumeResult
    rw [if_pos h]
  · intro invoke2
    unfold resumeResult
    rw [if_pos h, if_pos h]

/-- Claim C10 (witness): `resume("CANCEL")` cancels exactly as
`resume("cancel")` does, for any graph. -/
theorem resume_cancel_case_insensitive_witness :
    resumeResult (fun _ => .raised "x") "CANCEL" "t10" = cancelResult "t10"
    ∧ (∀ invoke2 : String → InvokeOutcome,
        resumeResult invoke2 "CANCEL" "t10" = resumeResult (fun _ => .raised "x") "CANCEL" "t10") :=
  resume_cancel_case_insensitive "CANCEL" "t10" (fun _ => .raised "x") (by decide)

/-- Claim C3 (confirmed): when a resumed interaction step's validator
rejects the input, the step suspends again with the validator's message and
with data equal to the original interrupt data merged with exactly the
three fields `error = true`, `error_message` (the validator's message) and
`previous_input` (the rejected raw input); no state merge is applied, the
replayed step stamp is the same step name, and the caller receives a fresh
awaiting result (status "awaiting_human_input") for that step. -/
theorem invalid_resume_resuspends_with_guidance
    (cfg : InterruptConfig) (custom_data validation_context : Dict)
    (state : WorkflowState) (rawInput tid : String)
    (h1 : dGetBool (cfg.validation_fn rawInput validation_context) "valid" = false)
    (h2 : pyLower rawInput ≠ "cancel") :
    interaction_node_resume cfg custom_data validation_context state rawInput
      = .suspended { message := some (node_error_message cfg validation_context rawInput),
                     data := some (node_guidance_data cfg custom_data validation_context rawInput) }
    ∧ (∀ k, k ≠ "error" → k ≠ "error_message" → k ≠ "previous_input" →
        dlookup (node_guidance_data cfg custom_data validation_context rawInput) k
          = dlookup (node_data cfg custom_data) k)
    ∧ dlookup (node_guidance_data cfg custom_data validation_context rawInput) "error"
        = some (.bool true)
    ∧ dlookup (node_guidance_data cfg custom_data validation_context rawInput) "error_message"
        = some (.str (node_error_message cfg validation_context rawInput))
    ∧ dlookup (node_guidance_data cfg custom_data validation_context rawInput) "previous_input"
        = some (.str rawInput)
    ∧ (update_step state cfg.step_name).current_step = some cfg.step_name
    ∧ resumeResult
        (fun i => match interaction_node_resume cfg custom_data validation_context state i with
          | .ok s2 => .final s2
          | .suspended q => .interrupted q) rawInput tid
      = { status := "awaiting_human_input", thread_id := tid,
          message := some (node_error_message cfg validation_context rawInput),
          data := some (node_guidance_data cfg custom_data validation_context rawInput) } := by
  have hnode : interaction_node_resume cfg custom_data validation_context state rawInput
      = .suspended { message := some (node_error_message cfg validation_context rawInput),
                     data := some (node_guidance_data cfg custom_data validation_context rawInput) } := by
    simp only [interaction_node_resume, create_interrupt, h1, Bool.false_eq_true, if_false]
    simp only [node_error_message, node_guidance_data, node_data]
  refine ⟨hnode, ?_, ?_, ?_, ?_, rfl, ?_⟩
  · intro k hk1 hk2 hk3
    unfold node_guidance_data guidance_data
    rw [dlookup_dinsert_ne _ _ _ _ hk3, dlookup_dinsert_ne _ _ _ _ hk2,
      dlookup_dinsert_ne _ _ _ _ hk1]
  · unfold node_guidance_data guidance_data
    rw [dlookup_dinsert_ne _ _ _ _ (by decide), dlookup_dinsert_ne _ _ _ _ (by decide),
      dlookup_dinsert_self]
  · unfold node_guidance_data guidance_data
    rw [dlookup_dinsert_ne _ _ _ _ (by decide), dlookup_dinsert_self]
  · unfold node_guidance_data guidance_data
    rw [dlookup_dinsert_self]
  · unfold resumeResult
    rw [if_neg h2]
    simp only [hnode]
    rfl

/-- Claim C3 (witness): resuming the login-confirmation interrupt with the
unrecognized answer "maybe" re-suspends with guidance. -/
theorem invalid_resume_resuspends_with_guidance_witness :
    interaction_node_resume login_confirmation_config [("screenshot", Val.pynone)] []
        emptyState "maybe"
      = .suspended { message := some (node_error_message login_confirmation_config [] "maybe"),
                     data := some (node_guidance_data login_confirmation_config
                       [("screenshot", Val.pynone)] [] "maybe") }
    ∧ (∀ k, k ≠ "error" → k ≠ "error_message" → k ≠ "previous_input" →
        dlookup (node_guidance_data login_confirmation_config
            [("screenshot", Val.pynone)] [] "maybe") k
          = dlookup (node_data login_confirmation_config [("screenshot", Val.pynone)]) k)
    ∧ dlookup (node_guidance_data login_confirmation_config
        [("screenshot", Val.pynone)] [] "maybe") "error" = some (.bool true)
    ∧ dlookup (node_guidance_data login_confirmation_config
        [("screenshot", Val.pynone)] [] "maybe") "error_message"
        = some (.str (node_error_message login_confirmation_config [] "maybe"))
    ∧ dlookup (node_guidance_data login_confirmation_config
        [("screenshot", Val.pynone)] [] "maybe") "previous_input" = some (.str "maybe")
    ∧ (update_step emptyState login_confirmation_config.step_name).current_step
        = some login_confirmation_config.step_name
    ∧ resumeResult
        (fun i => match interaction_node_resume login_confirmation_config
            [("screenshot", Val.pynone)] [] emptyState i with
          | .ok s2 => .final s2
          | .suspended q => .interrupted q) "maybe" "t3"
      = { status := "awaiting_human_input", thread_id := "t3",
          message := some (node_error_message login_confirmation_config [] "maybe"),
          data := some (node_guidance_data login_confirmation_config
            [("screenshot", Val.pynone)] [] "maybe") } :=
  invalid_resume_resuspends_with_guidance login_confirmation_config
    [("screenshot", Val.pynone)] [] emptyState "maybe" "t3" (by decide) (by decide)

/-- Claim C7 (counterexample): after the scraping workflow's first node
runs, `current_step` is "parameter_extraction", which is not one of the
node names of the workflow's graph. -/
theorem current_step_not_node_name_counterexample :
    Scraping.currentStepOf
        (Scraping.extract_parameters { user_input := some "usernames: alice" })
      = some "parameter_extraction"
    ∧ ¬ ("parameter_extraction" ∈ Scraping.node_names) := by
  decide

/-- Claim C7 (amended): after the scraping workflow's parameter-extraction
node returns, `current_step` holds the step's descriptive label
"parameter_extraction"; the labels stamped by `update_step` are display
names that need not name a node of the graph, and this one does not. -/
theorem extract_parameters_step_label (s s2 : Scraping.State)
    (h : Scraping.extract_parameters s = Except.ok s2) :
    s2.current_step = some "parameter_extraction"
    ∧ ¬ ("parameter_extraction" ∈ Scraping.node_names) := by
  refine ⟨?_, by decide⟩
  have h2 : Scraping.extract_after_step (Scraping.update_step s "parameter_extraction")
      = Except.ok s2 := h
  have hstep : (Scraping.update_step s "parameter_extraction").current_step
      = some "parameter_extraction" := rfl
  rw [← hstep]
  exact extract_after_step_current_step _ _ h2

/-- Claim C7 (witness): the counterexample input run through the amended
statement. -/
theorem extract_parameters_step_label_witness :
    ({ user_input := some "usernames: alice", current_step := some "parameter_extraction",
       usernames := some ["alice"] } : Scraping.State).current_step
        = some "parameter_extraction"
    ∧ ¬ ("parameter_extraction" ∈ Scraping.node_names) :=
  extract_parameters_step_label { user_input := some "usernames: alice" }
    { user_input := some "usernames: alice", current_step := some "parameter_extraction",
      usernames := some ["alice"] } rfl

/-- Claim C8 (confirmed): acceptance of a resume input is decided solely by
the interrupt's validator: whenever the validator returns valid
the state-merge function is applied and traversal continues, even when the
raw input is free text not contained in the options list, and replacing the
options list never changes whether an input is accepted. -/
theorem validator_sole_authority_on_acceptance (cfg : InterruptConfig)
    (custom_data validation_context : Dict) (state : WorkflowState) (input : String)
    (h1 : dGetBool (cfg.validation_fn input validation_context) "valid" = true)
    (h2 : cfg.options.contains input = false) :
    interaction_node_resume cfg custom_data validation_context state input
      = .ok (cfg.state_update_fn (update_step state cfg.step_name)
          (cfg.validation_fn input validation_context))
    ∧ (∀ opts2 : List String,
        node_accepts (interaction_node_resume
            { cfg with options := opts2 } custom_data validation_context state input)
          = node_accepts (interaction_node_resume cfg custom_data
              validation_context state input)) := by
  constructor
  · simp only [interaction_node_resume, create_interrupt, h1, if_true]
  · intro opts2
    simp only [interaction_node_resume, create_interrupt, h1, if_true]

/-- Claim C8 (witness): an edited free-text message, absent from the
options list, is accepted by `_validate_message_confirmation` and merged
into the state. -/
theorem validator_sole_authority_on_acceptance_witness :
    interaction_node_resume message_confirmation_config [] [] emptyState
        "Here is my edited message"
      = .ok (message_confirmation_config.state_update_fn
          (update_step emptyState message_confirmation_config.step_name)
          (message_confirmation_config.validation_fn "Here is my edited message" []))
    ∧ (∀ opts2 : List String,
        node_accepts (interaction_node_resume
            { message_confirmation_config with options := opts2 } [] [] emptyState
            "Here is my edited message")
          = node_accepts (interaction_node_resume message_confirmation_config [] []
              emptyState "Here is my edited message")) :=
  validator_sole_authority_on_acceptance message_confirmation_config [] [] emptyState
    "Here is my edited message" (by decide) (by decide)

end ContentAgent
